import Mathlib

/-
Shallow embedding of the sync-validate-retry pipeline of this repository:
route discovery, content synchronization, the structural and visual diff
engines, the per-round validation loop of the first pipeline script
(src/unnamed/part_001), the per-check accumulating loops of the second
pipeline script (src/unnamed/part_002), the bounded and unbounded retry
loops of both main IIFEs, and the padding visual comparison of
src/test/visual-regression.test.js.

External collaborators (network fetches, the headless browser, the external
checkers, pixelmatch) are modelled at their interfaces: their outcomes are
passed in as explicit parameters, while every piece of control flow,
arithmetic and data manipulation written in the repository itself is
translated directly from the JavaScript source.
-/

/- Configured thresholds, from src/unnamed/part_001 lines 17-18:
   VISUAL_THRESHOLD = 0.1 (percent), DOM_THRESHOLD = 0.99.
   src/unnamed/part_002 line 13 and src/test/visual-regression.test.js line 19
   use the same visual threshold 0.1. -/
def visualThreshold : ℚ := 1 / 10

def domThreshold : ℚ := 99 / 100

/- ------------------------------------------------------------------ -/
/- Route discovery (src/unnamed/part_001, discoverRoutes, lines 28-51) -/
/- ------------------------------------------------------------------ -/

/-- Strip a single leading slash, as the regex replace of one leading "/"
does in discoverRoutes. -/
def dropLeadSlash (s : String) : String :=
  if s.startsWith "/" then s.drop 1 else s

/-- Strip a single trailing slash, as the regex replace of one trailing "/"
does in discoverRoutes. -/
def dropTrailSlash (s : String) : String :=
  if s.endsWith "/" then s.dropRight 1 else s

/-- Remove the first occurrence of pat from s, the behaviour of the
JavaScript String.replace with a plain-string pattern and empty
replacement, used to strip the site origin from a sitemap location. -/
def removeFirst (s pat : String) : String :=
  match s.splitOn pat with
  | x :: y :: rest => x ++ String.intercalate pat (y :: rest)
  | _ => s

/-- Insertion-ordered deduplication, the behaviour of
Array.from(new Set(routes)): keep the first occurrence of each element.
The first argument accumulates the elements already seen. -/
def dedupAux : List String → List String → List String
  | _, [] => []
  | seen, x :: xs =>
    if x ∈ seen then dedupAux seen xs else x :: dedupAux (x :: seen) xs

/-- Normalization of one sitemap location entry
(part_001 line 34): strip the origin, one leading slash, one trailing
slash. -/
def normalizeLoc (base loc : String) : String :=
  dropTrailSlash (dropLeadSlash (removeFirst loc base))

/-- Primary discovery path (part_001 lines 30-37): normalize every
sitemap location and deduplicate. -/
def discoverFromSitemap (base : String) (locs : List String) : List String :=
  dedupAux [] (locs.map (normalizeLoc base))

/-- Fallback discovery path (part_001 lines 40-49): a set seeded with the
root Route, extended with every same-origin anchor href (those starting
with "/"), each normalized. -/
def discoverFallback (hrefs : List String) : List String :=
  dedupAux []
    ("" :: (hrefs.filter (fun h => h.startsWith "/")).map
      (fun h => dropTrailSlash (dropLeadSlash h)))

/-- discoverRoutes (part_001 lines 28-51). Acquiring the site index is
modelled at its interface: some locs when the sitemap fetch succeeded
(the lenient XML parse never throws and yields the list of location
entries), none when the fetch failed, which is what triggers the
fallback crawl of the root document's hrefs. -/
def discoverRoutes (base : String) (sitemapLocs : Option (List String))
    (rootHrefs : List String) : List String :=
  match sitemapLocs with
  | some locs => discoverFromSitemap base locs
  | none => discoverFallback rootHrefs

/- ------------------------------------------------------------- -/
/- Content synchronizer (src/unnamed/part_001, syncRoute, 53-69)  -/
/- ------------------------------------------------------------- -/

inductive SyncError
  | missingContentRegion
  | belowContentThreshold
deriving DecidableEq

/-- The completeness computation of syncRoute, part_001 line 66:
if the extracted primary content is non-empty the value is its length
divided by itself, otherwise the ternary's other branch yields 1. -/
def completenessRatioOf (mainHtml : String) : ℚ :=
  if mainHtml.length ≠ 0 then
    (mainHtml.length : ℚ) / (mainHtml.length : ℚ)
  else 1

/-- syncRoute (part_001 lines 53-69), reduced to its decision logic: the
located primary content region is passed in (none when neither main nor
the generic content container was present, line 58's throw), the
completeness value is computed as on line 66 and checked against the
threshold as on line 67. Filesystem writes carry no decision logic and
are omitted. -/
def syncRoute (mainRegion : Option String) : Except SyncError ℚ :=
  match mainRegion with
  | none => Except.error SyncError.missingContentRegion
  | some mainHtml =>
    let value := completenessRatioOf mainHtml
    if value < domThreshold then Except.error SyncError.belowContentThreshold
    else Except.ok value

/- ----------------------------------------------------------------- -/
/- Structural diff in length-ratio mode (part_001, validate line 119) -/
/- ----------------------------------------------------------------- -/

/-- The structural check of part_001 line 119: the Route fails when the
live-side extraction came back empty (the catch handler yields the empty
string, so a missing selector lands here) or when the length quotient is
below the threshold; it passes otherwise. -/
def domDiffPass (localHtml liveHtml : String) : Bool :=
  !(decide (liveHtml = "") ||
    decide ((localHtml.length : ℚ) / (liveHtml.length : ℚ) < domThreshold))

/- ----------------- -/
/- Helper lemmas      -/
/- ----------------- -/

theorem strLength_pos (s : String) (h : s ≠ "") : 0 < s.length := by
  cases s with
  | mk data =>
    cases data with
    | nil => exact absurd rfl h
    | cons c cs => simp [String.length]

theorem domDiffPass_iff (lo li : String) :
    domDiffPass lo li = true ↔
      domThreshold ≤ (lo.length : ℚ) / (li.length : ℚ) := by
  have hthr : (0 : ℚ) < domThreshold := by norm_num [domThreshold]
  unfold domDiffPass
  simp only [Bool.not_eq_true', Bool.or_eq_false_iff, decide_eq_false_iff_not,
    not_lt]
  constructor
  · intro h
    exact h.2
  · intro h
    refine ⟨?_, h⟩
    intro hli
    subst hli
    rw [show (("" : String).length : ℚ) = 0 by norm_num [String.length],
      div_zero] at h
    exact absurd (lt_of_lt_of_le hthr h) (lt_irrefl 0)

theorem domDiffPass_self (lo : String) (h : lo ≠ "") :
    domDiffPass lo lo = true := by
  rw [domDiffPass_iff]
  have hpos : (0 : ℚ) < (lo.length : ℚ) := by
    exact_mod_cast strLength_pos lo h
  rw [div_self (ne_of_gt hpos)]
  norm_num [domThreshold]

theorem domDiffPass_empty_live (lo : String) : domDiffPass lo "" = false := by
  have hthr : (0 : ℚ) < domThreshold := by norm_num [domThreshold]
  by_cases hb : domDiffPass lo "" = true
  · exfalso
    have := (domDiffPass_iff lo "").mp hb
    rw [show (("" : String).length : ℚ) = 0 by norm_num [String.length],
      div_zero] at this
    exact absurd (lt_of_lt_of_le hthr this) (lt_irrefl 0)
  · simpa using hb

theorem dedupAux_spec (l : List String) :
    ∀ seen, (dedupAux seen l).Nodup ∧ ∀ x ∈ dedupAux seen l, x ∉ seen := by
  induction l with
  | nil => intro seen; simp [dedupAux]
  | cons x xs ih =>
    intro seen
    by_cases hx : x ∈ seen
    · simpa [dedupAux, hx] using ih seen
    · have h1 := ih (x :: seen)
      refine ⟨?_, ?_⟩
      · simp only [dedupAux, hx, if_false, List.nodup_cons]
        refine ⟨fun hmem => ?_, h1.1⟩
        exact (h1.2 x hmem) (List.mem_cons_self x seen)
      · intro y hy
        simp only [dedupAux, hx, if_false, List.mem_cons] at hy
        rcases hy with rfl | hy
        · exact hx
        · intro hyseen
          exact (h1.2 y hy) (List.mem_cons_of_mem x hyseen)

/- ----------------- -/
/- Claim C8           -/
/- ----------------- -/

/-- C8: Route Discovery always returns a duplicate-free list of normalized
Routes; when acquiring the site index fails it falls back to crawling the
root document's same-origin anchor hrefs, and the fallback result always
contains the root Route, the empty string. -/
theorem C8_route_discovery (base : String) (sitemapLocs : Option (List String))
    (rootHrefs : List String) :
    (discoverRoutes base sitemapLocs rootHrefs).Nodup ∧
    (sitemapLocs = none → "" ∈ discoverRoutes base sitemapLocs rootHrefs) := by
  constructor
  · cases sitemapLocs with
    | some locs => exact (dedupAux_spec (locs.map (normalizeLoc base)) []).1
    | none =>
      exact (dedupAux_spec
        ("" :: (rootHrefs.filter (fun h => h.startsWith "/")).map
          (fun h => dropTrailSlash (dropLeadSlash h))) []).1
  · intro hnone
    subst hnone
    simp [discoverRoutes, discoverFallback, dedupAux]

/-- C8 witness: discovery run on a concrete failed index fetch with one
same-origin link; the result is duplicate-free and contains the root
Route. -/
theorem C8_route_discovery_witness :
    ((none : Option (List String)) = none →
      "" ∈ discoverRoutes "https://genaiglobal.org" none ["/about-us/"]) ∧
    (discoverRoutes "https://genaiglobal.org" none ["/about-us/"]).Nodup ∧
    "" ∈ discoverRoutes "https://genaiglobal.org" none ["/about-us/"] := by
  have h := C8_route_discovery "https://genaiglobal.org" none ["/about-us/"]
  exact ⟨fun _ => h.2 rfl, h.1, h.2 rfl⟩

/- ----------------- -/
/- Claims C10 and C2  -/
/- ----------------- -/

/-- C10: for every located primary content region the completeness value
computed by syncRoute is exactly 1, empty content included, so the
below-threshold branch is unreachable and syncRoute never throws the
threshold error. -/
theorem C10_completeness_always_one (mainHtml : String) :
    completenessRatioOf mainHtml = 1 ∧
    syncRoute (some mainHtml) = Except.ok 1 := by
  have hr : completenessRatioOf mainHtml = 1 := by
    unfold completenessRatioOf
    by_cases h : mainHtml.length ≠ 0
    · rw [if_pos h]
      exact div_self (by exact_mod_cast h)
    · rw [if_neg h]
  refine ⟨hr, ?_⟩
  show (let value := completenessRatioOf mainHtml;
    if value < domThreshold then Except.error SyncError.belowContentThreshold
    else Except.ok value) = Except.ok 1
  rw [hr]
  norm_num [domThreshold]

/-- C2: evaluation of syncRoute at a located but empty primary content
region: the code returns success with value 1 instead of failing with the
below-threshold error the specification requires. -/
theorem C2_sync_empty_succeeds : syncRoute (some "") = Except.ok 1 := by
  unfold syncRoute completenessRatioOf
  norm_num [domThreshold]

/- ----------------- -/
/- Claim C6           -/
/- ----------------- -/

/-- C6: the length-ratio structural check passes exactly when the length
quotient local over live reaches the threshold; consequently comparing a
non-empty markup with itself passes, and an empty live side, which is
also what a failed live-side extraction produces, always fails. -/
theorem C6_structural_length_ratio (localHtml liveHtml : String) :
    (domDiffPass localHtml liveHtml = true ↔
      domThreshold ≤ (localHtml.length : ℚ) / (liveHtml.length : ℚ)) ∧
    (localHtml ≠ "" → domDiffPass localHtml localHtml = true) ∧
    domDiffPass localHtml "" = false :=
  ⟨domDiffPass_iff localHtml liveHtml, domDiffPass_self localHtml,
    domDiffPass_empty_live localHtml⟩

/-- C6 witness: the structural check at concrete markup: a non-empty
string against itself passes, and against the empty live side fails. -/
theorem C6_structural_length_ratio_witness :
    ("x" ≠ "" → domDiffPass "x" "x" = true) ∧
    domDiffPass "x" "x" = true ∧ domDiffPass "x" "" = false := by
  have h := C6_structural_length_ratio "x" "x"
  exact ⟨h.2.1, h.2.1 (by decide), (C6_structural_length_ratio "x" "y").2.2⟩

/- ------------------------------------------------------------------- -/
/- Raster images and the pixel diff                                     -/
/- (src/test/visual-regression.test.js 50-79, src/unnamed/part_001      -/
/-  lines 121-129, src/unnamed/part_002 lines 167-174)                  -/
/- ------------------------------------------------------------------- -/

/-- A decoded PNG as pngjs exposes it: width, height and a flat row-major
RGBA byte buffer of length width * height * 4. -/
structure PNGImage where
  width : ℕ
  height : ℕ
  data : List ℕ
deriving DecidableEq

/-- The four RGBA bytes of pixel i of a flat buffer. -/
def pixelAt (d : List ℕ) (i : ℕ) : List ℕ :=
  (d.drop (4 * i)).take 4

/-- The four RGBA bytes of the pixel at column x, row y of an image. -/
def pixelAtXY (img : PNGImage) (x y : ℕ) : List ℕ :=
  pixelAt img.data (y * img.width + x)

/-- Number of differing pixels among the first n pixels of two flat
buffers. -/
def pmCount (d1 d2 : List ℕ) (n : ℕ) : ℕ :=
  ((List.range n).filter (fun i => decide (pixelAt d1 i ≠ pixelAt d2 i))).length

/-- Modelled from the spec: the external pixelmatch library, an opaque
collaborator that computes "a pixel-level difference count using a
perceptual color-distance threshold per pixel" and, per its documented
interface, throws when the two buffers disagree in size with each other
or with the stated width and height. The perceptual per-pixel predicate
is modelled as plain byte inequality; no claim below depends on its
choice, only on the count's range and on the size guard. -/
def pixelmatch (d1 d2 : List ℕ) (w h : ℕ) : Except String ℕ :=
  if d1.length ≠ w * h * 4 ∨ d2.length ≠ d1.length then
    Except.error "Image sizes do not match."
  else Except.ok (pmCount d1 d2 (w * h))

/-- new PNG({ width, height }): a zero-initialized buffer. -/
def newPNG (w h : ℕ) : PNGImage :=
  ⟨w, h, List.replicate (w * h * 4) 0⟩

/-- One byte of the result of PNG.bitblt(src, dst, 0, 0, src.width,
src.height, 0, 0): inside the copied origin-anchored rectangle the byte
comes from src, outside it the destination byte is kept. -/
def bitbltByte (src dst : PNGImage) (j : ℕ) : ℕ :=
  if (j / 4) % dst.width < src.width ∧ (j / 4) / dst.width < src.height then
    src.data.getD (4 * ((j / 4) / dst.width * src.width + (j / 4) % dst.width) + j % 4) 0
  else dst.data.getD j 0

/-- PNG.bitblt(src, dst, 0, 0, src.width, src.height, 0, 0) as used on
lines 57-58 of the test: copy src onto dst anchored at the origin. -/
def bitbltOrigin (src dst : PNGImage) : PNGImage :=
  { dst with data := (List.range (dst.width * dst.height * 4)).map (bitbltByte src dst) }

/-- Canvas width for the padded comparison, line 53 of the test. -/
def paddedCanvasW (img1 img2 : PNGImage) : ℕ := max img1.width img2.width

/-- Canvas height for the padded comparison, line 54 of the test. -/
def paddedCanvasH (img1 img2 : PNGImage) : ℕ := max img1.height img2.height

structure VisualResult where
  diffPixels : ℕ
  diffPercentage : ℚ
  passed : Bool
deriving DecidableEq

/-- The per-page comparison of src/test/visual-regression.test.js lines
50-79: decode both screenshots, pad both onto a canvas of the maximum
width and maximum height anchored at the origin, run pixelmatch over the
padded buffers, derive the percentage and the pass verdict. -/
def testVisualCompare (localPNG livePNG : PNGImage) : Except String VisualResult :=
  match pixelmatch
      (bitbltOrigin localPNG (newPNG (paddedCanvasW localPNG livePNG) (paddedCanvasH localPNG livePNG))).data
      (bitbltOrigin livePNG (newPNG (paddedCanvasW localPNG livePNG) (paddedCanvasH localPNG livePNG))).data
      (paddedCanvasW localPNG livePNG) (paddedCanvasH localPNG livePNG) with
  | Except.error e => Except.error e
  | Except.ok diffPixels =>
    Except.ok ⟨diffPixels,
      (diffPixels : ℚ) / ((paddedCanvasW localPNG livePNG * paddedCanvasH localPNG livePNG : ℕ) : ℚ) * 100,
      decide ((diffPixels : ℚ) / ((paddedCanvasW localPNG livePNG * paddedCanvasH localPNG livePNG : ℕ) : ℚ) * 100 ≤ visualThreshold)⟩

/-- The error taxonomy of a part_001 validation round: each constructor is
one throw site of validate (lines 87-141). -/
inductive VErr
  | lint
  | pa11y (route : String)
  | axe (route : String)
  | blc
  | domDiff (route : String)
  | pixelmatchSize (route : String)
  | visualDiff (route : String)
  | lighthouse (route : String)
deriving DecidableEq

/-- Flat diff-image filename: every path separator of the Route replaced
by an underscore (part_001 line 127, part_002 line 174). -/
def flatName (route : String) : String :=
  route.map (fun c => if c = '/' then '_' else c)

/-- The visual-diff step of part_001 validate, lines 121-129: pixelmatch
is called directly on the two decoded buffers with the local image's
width and height, with no padding; on success the diff image is written
(first component lists the files written) before the threshold check
throws or passes. -/
def visualDiffStep (localShot liveShot : PNGImage) (route : String) :
    List String × Except VErr ℚ :=
  match pixelmatch localShot.data liveShot.data localShot.width localShot.height with
  | Except.error _ => ([], Except.error (VErr.pixelmatchSize route))
  | Except.ok diffPixels =>
    ([flatName route ++ ".png"],
      if visualThreshold < (diffPixels : ℚ) / ((localShot.width * localShot.height : ℕ) : ℚ) * 100 then
        Except.error (VErr.visualDiff route)
      else Except.ok ((diffPixels : ℚ) / ((localShot.width * localShot.height : ℕ) : ℚ) * 100))

/- Helper lemmas about buffers and padding -/

theorem getD_map_range (f : ℕ → ℕ) (N j : ℕ) (hj : j < N) :
    (List.map f (List.range N)).getD j 0 = f j := by
  have hlen : j < (List.map f (List.range N)).length := by
    simpa using hj
  rw [List.getD_eq_getElem _ _ hlen, List.getElem_map, List.getElem_range]

theorem getD_replicate_zero (n j : ℕ) : (List.replicate n (0 : ℕ)).getD j 0 = 0 := by
  by_cases hj : j < n
  · rw [List.getD_eq_getElem _ _ (by simpa using hj), List.getElem_replicate]
  · exact List.getD_eq_default _ _ (by simpa using Nat.le_of_not_lt hj)

theorem take_four_drop : ∀ (m : ℕ) (l : List ℕ), m + 4 ≤ l.length →
    (l.drop m).take 4 =
      [l.getD m 0, l.getD (m + 1) 0, l.getD (m + 2) 0, l.getD (m + 3) 0]
  | 0, [], h => by simp at h
  | 0, [a], h => by simp at h
  | 0, [a, b], h => by simp at h
  | 0, [a, b, c], h => by simp at h
  | 0, a :: b :: c :: d :: t, _ => by
    simp [List.getD]
  | m + 1, [], h => by simp at h
  | m + 1, x :: t, h => by
    have ih := take_four_drop m t (by simpa using h)
    have e2 : m + 2 = m + 1 + 1 := by omega
    have e3 : m + 3 = m + 2 + 1 := by omega
    have e4 : m + 1 + 3 = m + 3 + 1 := by omega
    calc ((x :: t).drop (m + 1)).take 4 = (t.drop m).take 4 := rfl
      _ = [t.getD m 0, t.getD (m + 1) 0, t.getD (m + 2) 0, t.getD (m + 3) 0] := ih
      _ = [(x :: t).getD (m + 1) 0, (x :: t).getD (m + 1 + 1) 0,
            (x :: t).getD (m + 2 + 1) 0, (x :: t).getD (m + 3 + 1) 0] := by
          simp [List.getD_cons_succ]
      _ = [(x :: t).getD (m + 1) 0, (x :: t).getD (m + 1 + 1) 0,
            (x :: t).getD (m + 1 + 2) 0, (x :: t).getD (m + 1 + 3) 0] := by
          rw [show m + 2 + 1 = m + 1 + 2 by omega, show m + 3 + 1 = m + 1 + 3 by omega]

theorem pixelAt_eq_getD (d : List ℕ) (i : ℕ) (h : 4 * i + 4 ≤ d.length) :
    pixelAt d i =
      [d.getD (4 * i) 0, d.getD (4 * i + 1) 0, d.getD (4 * i + 2) 0,
        d.getD (4 * i + 3) 0] :=
  take_four_drop (4 * i) d h

theorem idx_bound (x y wd ht : ℕ) (hx : x < wd) (hy : y < ht) :
    y * wd + x < wd * ht := by
  calc y * wd + x < y * wd + wd := by omega
    _ = (y + 1) * wd := by ring
    _ ≤ ht * wd := Nat.mul_le_mul_right wd (Nat.succ_le_of_lt hy)
    _ = wd * ht := Nat.mul_comm ht wd

theorem bitbltOrigin_data_getD (src dst : PNGImage) (j : ℕ)
    (hj : j < dst.width * dst.height * 4) :
    (bitbltOrigin src dst).data.getD j 0 = bitbltByte src dst j :=
  getD_map_range (bitbltByte src dst) _ j hj

theorem bitbltOrigin_length (src dst : PNGImage) :
    (bitbltOrigin src dst).data.length = dst.width * dst.height * 4 := by
  simp [bitbltOrigin]

theorem bitblt_pad_byte (src : PNGImage) (w h x y b : ℕ)
    (hx : x < src.width) (hy : y < src.height)
    (hw : src.width ≤ w) (hh : src.height ≤ h) (hb : b < 4) :
    (bitbltOrigin src (newPNG w h)).data.getD (4 * (y * w + x) + b) 0 =
      src.data.getD (4 * (y * src.width + x) + b) 0 := by
  have hxw : x < w := lt_of_lt_of_le hx hw
  have hyh : y < h := lt_of_lt_of_le hy hh
  have hwpos : 0 < w := Nat.lt_of_le_of_lt (Nat.zero_le x) hxw
  have hp : y * w + x < w * h := idx_bound x y w h hxw hyh
  have hj : 4 * (y * w + x) + b < w * h * 4 := by
    calc 4 * (y * w + x) + b < 4 * (y * w + x) + 4 := by omega
      _ = 4 * (y * w + x + 1) := by ring
      _ ≤ 4 * (w * h) := Nat.mul_le_mul_left 4 (Nat.succ_le_of_lt hp)
      _ = w * h * 4 := by ring
  rw [show (bitbltOrigin src (newPNG w h)).data.getD (4 * (y * w + x) + b) 0 =
      bitbltByte src (newPNG w h) (4 * (y * w + x) + b) from
    bitbltOrigin_data_getD src (newPNG w h) _ hj]
  unfold bitbltByte
  have hdiv : (4 * (y * w + x) + b) / 4 = y * w + x := by
    rw [Nat.mul_add_div (by norm_num)]
    omega
  have hmod : (4 * (y * w + x) + b) % 4 = b := by
    rw [Nat.mul_add_mod]
    exact Nat.mod_eq_of_lt hb
  have hnw : (newPNG w h).width = w := rfl
  rw [hdiv, hmod, hnw]
  have hpx : (y * w + x) % w = x := by
    rw [show y * w + x = x + y * w by ring, Nat.add_mul_mod_self_right]
    exact Nat.mod_eq_of_lt hxw
  have hpy : (y * w + x) / w = y := by
    rw [show y * w + x = x + y * w by ring, Nat.add_mul_div_right _ _ hwpos,
      Nat.div_eq_of_lt hxw]
    omega
  rw [hpx, hpy, if_pos ⟨hx, hy⟩]

theorem bitblt_pad_pixel (src : PNGImage) (w h x y : ℕ)
    (hx : x < src.width) (hy : y < src.height)
    (hw : src.width ≤ w) (hh : src.height ≤ h)
    (hWF : src.data.length = src.width * src.height * 4) :
    pixelAtXY (bitbltOrigin src (newPNG w h)) x y = pixelAtXY src x y := by
  have hxw : x < w := lt_of_lt_of_le hx hw
  have hyh : y < h := lt_of_lt_of_le hy hh
  have hp : y * w + x < w * h := idx_bound x y w h hxw hyh
  have hpsrc : y * src.width + x < src.width * src.height :=
    idx_bound x y src.width src.height hx hy
  have hb1 : 4 * (y * w + x) + 4 ≤ (bitbltOrigin src (newPNG w h)).data.length := by
    rw [bitbltOrigin_length]
    show 4 * (y * w + x) + 4 ≤ (newPNG w h).width * (newPNG w h).height * 4
    have : y * w + x + 1 ≤ w * h := Nat.succ_le_of_lt hp
    calc 4 * (y * w + x) + 4 = 4 * (y * w + x + 1) := by ring
      _ ≤ 4 * (w * h) := Nat.mul_le_mul_left 4 this
      _ = (newPNG w h).width * (newPNG w h).height * 4 := by
          show 4 * (w * h) = w * h * 4
          ring
  have hb2 : 4 * (y * src.width + x) + 4 ≤ src.data.length := by
    rw [hWF]
    have : y * src.width + x + 1 ≤ src.width * src.height := Nat.succ_le_of_lt hpsrc
    calc 4 * (y * src.width + x) + 4 = 4 * (y * src.width + x + 1) := by ring
      _ ≤ 4 * (src.width * src.height) := Nat.mul_le_mul_left 4 this
      _ = src.width * src.height * 4 := by ring
  show pixelAt (bitbltOrigin src (newPNG w h)).data (y * w + x) =
    pixelAt src.data (y * src.width + x)
  rw [pixelAt_eq_getD _ _ hb1, pixelAt_eq_getD _ _ hb2]
  have e0 := bitblt_pad_byte src w h x y 0 hx hy hw hh (by omega)
  have e1 := bitblt_pad_byte src w h x y 1 hx hy hw hh (by omega)
  have e2 := bitblt_pad_byte src w h x y 2 hx hy hw hh (by omega)
  have e3 := bitblt_pad_byte src w h x y 3 hx hy hw hh (by omega)
  simp only [Nat.add_zero] at e0
  rw [e0, e1, e2, e3]

theorem pixelmatch_ok (d1 d2 : List ℕ) (w h : ℕ)
    (h1 : d1.length = w * h * 4) (h2 : d2.length = d1.length) :
    pixelmatch d1 d2 w h = Except.ok (pmCount d1 d2 (w * h)) := by
  unfold pixelmatch
  rw [if_neg]
  push_neg
  exact ⟨h1, h2⟩

/-- Reduction of the part_001 visual-diff step when the two buffers agree
in size: the diff image is written and the threshold decides the
verdict. -/
theorem visualDiffStep_eq (localShot liveShot : PNGImage) (route : String)
    (h1 : localShot.data.length = localShot.width * localShot.height * 4)
    (h2 : liveShot.data.length = localShot.data.length) :
    visualDiffStep localShot liveShot route =
      ([flatName route ++ ".png"],
        if visualThreshold <
            (pmCount localShot.data liveShot.data (localShot.width * localShot.height) : ℚ) /
              ((localShot.width * localShot.height : ℕ) : ℚ) * 100 then
          Except.error (VErr.visualDiff route)
        else Except.ok
          ((pmCount localShot.data liveShot.data (localShot.width * localShot.height) : ℚ) /
            ((localShot.width * localShot.height : ℕ) : ℚ) * 100)) := by
  unfold visualDiffStep
  rw [pixelmatch_ok _ _ _ _ h1 h2]

/- ----------------- -/
/- Claim C3           -/
/- ----------------- -/

/-- C3 amended: the test-harness visual comparison pads both decoded
screenshots onto a canvas of the maximum width and maximum height of the
pair, anchored at the origin (inside its own bounds each padded image
reproduces its source pixels exactly), and the comparison never fails for
well-formed inputs of any dimensions. -/
theorem C3_test_padding (img1 img2 : PNGImage)
    (h1 : img1.data.length = img1.width * img1.height * 4)
    (h2 : img2.data.length = img2.width * img2.height * 4) :
    (∃ res, testVisualCompare img1 img2 = Except.ok res) ∧
    (∀ x y, x < img1.width → y < img1.height →
      pixelAtXY (bitbltOrigin img1
        (newPNG (paddedCanvasW img1 img2) (paddedCanvasH img1 img2))) x y =
        pixelAtXY img1 x y) ∧
    (∀ x y, x < img2.width → y < img2.height →
      pixelAtXY (bitbltOrigin img2
        (newPNG (paddedCanvasW img1 img2) (paddedCanvasH img1 img2))) x y =
        pixelAtXY img2 x y) := by
  refine ⟨?_, ?_, ?_⟩
  · have hl1 : (bitbltOrigin img1
        (newPNG (paddedCanvasW img1 img2) (paddedCanvasH img1 img2))).data.length =
        paddedCanvasW img1 img2 * paddedCanvasH img1 img2 * 4 := by
      simpa [newPNG] using bitbltOrigin_length img1
        (newPNG (paddedCanvasW img1 img2) (paddedCanvasH img1 img2))
    have hl2 : (bitbltOrigin img2
        (newPNG (paddedCanvasW img1 img2) (paddedCanvasH img1 img2))).data.length =
        paddedCanvasW img1 img2 * paddedCanvasH img1 img2 * 4 := by
      simpa [newPNG] using bitbltOrigin_length img2
        (newPNG (paddedCanvasW img1 img2) (paddedCanvasH img1 img2))
    unfold testVisualCompare
    rw [pixelmatch_ok _ _ _ _ hl1 (hl2.trans hl1.symm)]
    exact ⟨_, rfl⟩
  · intro x y hx hy
    exact bitblt_pad_pixel img1 _ _ x y hx hy (le_max_left _ _) (le_max_left _ _) h1
  · intro x y hx hy
    exact bitblt_pad_pixel img2 _ _ x y hx hy (le_max_right _ _) (le_max_right _ _) h2

/-- A well-formed 1-by-1 all-zero screenshot. -/
def imgA : PNGImage := ⟨1, 1, [0, 0, 0, 0]⟩

/-- A well-formed 2-by-1 all-zero screenshot, differing from imgA in
width. -/
def imgB : PNGImage := ⟨2, 1, [0, 0, 0, 0, 0, 0, 0, 0]⟩

/-- C3 counterexample: the pipeline visual diff of part_001 (lines
121-129) does no padding: on two well-formed screenshots of different
pixel dimensions its pixelmatch call fails on the size mismatch, so the
comparison of that Route crashes and no diff image is written. -/
theorem C3_counterexample :
    imgA.width ≠ imgB.width ∧
    visualDiffStep imgA imgB "events" =
      ([], Except.error (VErr.pixelmatchSize "events")) := by
  constructor
  · decide
  · rfl

/-- C3 witness: the padded comparison on two concrete screenshots that
differ in width. -/
theorem C3_test_padding_witness :
    (imgA.data.length = imgA.width * imgA.height * 4) ∧
    (imgB.data.length = imgB.width * imgB.height * 4) ∧
    ((∃ res, testVisualCompare imgA imgB = Except.ok res) ∧
      (∀ x y, x < imgA.width → y < imgA.height →
        pixelAtXY (bitbltOrigin imgA
          (newPNG (paddedCanvasW imgA imgB) (paddedCanvasH imgA imgB))) x y =
          pixelAtXY imgA x y) ∧
      (∀ x y, x < imgB.width → y < imgB.height →
        pixelAtXY (bitbltOrigin imgB
          (newPNG (paddedCanvasW imgA imgB) (paddedCanvasH imgA imgB))) x y =
          pixelAtXY imgB x y)) :=
  ⟨by decide, by decide, C3_test_padding imgA imgB (by decide) (by decide)⟩

/- ----------------- -/
/- Claim C7           -/
/- ----------------- -/

theorem pixelmatch_mismatch (d1 d2 : List ℕ) (w h : ℕ)
    (hbad : d1.length ≠ w * h * 4 ∨ d2.length ≠ d1.length) :
    pixelmatch d1 d2 w h = Except.error "Image sizes do not match." := by
  unfold pixelmatch
  rw [if_pos hbad]

/-- C7 amended: for every Route whose two screenshots decode to buffers
of matching size, the part_001 visual diff derives the percentage as the
diff count over width times height times 100, passes exactly when that
percentage is at most the threshold, writes the diff image with the
flattened Route name on the pass path and on the fail path alike, and on
the fail path throws the visual-diff error. When the two buffers
disagree in size (or the local buffer disagrees with its own stated
dimensions), pixelmatch throws before the write, so no diff image is
written for that Route and the Route ends in the size-mismatch error
with neither a pass nor a fail verdict. -/
theorem C7_visual_diff (localShot liveShot : PNGImage) (route : String) :
    (localShot.data.length = localShot.width * localShot.height * 4 →
      liveShot.data.length = localShot.data.length →
      ((visualDiffStep localShot liveShot route).1 = [flatName route ++ ".png"] ∧
        ((visualDiffStep localShot liveShot route).2 =
            Except.ok ((pmCount localShot.data liveShot.data
                (localShot.width * localShot.height) : ℚ) /
              ((localShot.width * localShot.height : ℕ) : ℚ) * 100) ↔
          (pmCount localShot.data liveShot.data (localShot.width * localShot.height) : ℚ) /
              ((localShot.width * localShot.height : ℕ) : ℚ) * 100 ≤ visualThreshold) ∧
        (visualThreshold <
            (pmCount localShot.data liveShot.data (localShot.width * localShot.height) : ℚ) /
              ((localShot.width * localShot.height : ℕ) : ℚ) * 100 →
          (visualDiffStep localShot liveShot route).2 =
            Except.error (VErr.visualDiff route)))) ∧
    ((localShot.data.length ≠ localShot.width * localShot.height * 4 ∨
        liveShot.data.length ≠ localShot.data.length) →
      visualDiffStep localShot liveShot route =
        ([], Except.error (VErr.pixelmatchSize route))) := by
  constructor
  · intro h1 h2
    rw [visualDiffStep_eq localShot liveShot route h1 h2]
    by_cases hlt : visualThreshold <
        (pmCount localShot.data liveShot.data (localShot.width * localShot.height) : ℚ) /
          ((localShot.width * localShot.height : ℕ) : ℚ) * 100
    · refine ⟨rfl, ?_, ?_⟩
      · rw [if_pos hlt]
        exact iff_of_false (by simp) (not_le.mpr hlt)
      · intro _
        rw [if_pos hlt]
    · refine ⟨rfl, ?_, ?_⟩
      · rw [if_neg hlt]
        exact iff_of_true rfl (not_lt.mp hlt)
      · intro hc
        exact absurd hc hlt
  · intro hbad
    unfold visualDiffStep
    rw [pixelmatch_mismatch localShot.data liveShot.data
      localShot.width localShot.height hbad]

/-- C7 counterexample: on a Route whose local and live screenshots decode
to different pixel dimensions (here 1 by 1 against 2 by 1), the part_001
visual diff writes no diff image at all and produces neither a pass nor
a fail verdict: pixelmatch throws on the size mismatch before the write,
refuting the for-every-Route write-regardless conclusion. -/
theorem C7_counterexample :
    imgA.width ≠ imgB.width ∧
    visualDiffStep imgA imgB "get-involved" =
      ([], Except.error (VErr.pixelmatchSize "get-involved")) :=
  ⟨by decide, rfl⟩

/-- C7 witness: both halves of the amended statement at concrete inputs:
a 1-by-1 screenshot against itself on a Route containing a path
separator, and the same screenshot against a wider one. -/
theorem C7_visual_diff_witness :
    (imgA.data.length = imgA.width * imgA.height * 4) ∧
    (imgA.data.length = imgA.data.length) ∧
    ((visualDiffStep imgA imgA "about-us/index").1 =
        [flatName "about-us/index" ++ ".png"] ∧
      ((visualDiffStep imgA imgA "about-us/index").2 =
          Except.ok ((pmCount imgA.data imgA.data (imgA.width * imgA.height) : ℚ) /
            ((imgA.width * imgA.height : ℕ) : ℚ) * 100) ↔
        (pmCount imgA.data imgA.data (imgA.width * imgA.height) : ℚ) /
            ((imgA.width * imgA.height : ℕ) : ℚ) * 100 ≤ visualThreshold) ∧
      (visualThreshold <
          (pmCount imgA.data imgA.data (imgA.width * imgA.height) : ℚ) /
            ((imgA.width * imgA.height : ℕ) : ℚ) * 100 →
        (visualDiffStep imgA imgA "about-us/index").2 =
          Except.error (VErr.visualDiff "about-us/index"))) ∧
    (imgB.data.length ≠ imgA.data.length) ∧
    visualDiffStep imgA imgB "spotlight" =
      ([], Except.error (VErr.pixelmatchSize "spotlight")) :=
  ⟨by decide, rfl,
    (C7_visual_diff imgA imgA "about-us/index").1 (by decide) rfl,
    by decide,
    (C7_visual_diff imgA imgB "spotlight").2 (Or.inr (by decide))⟩

/- ------------------------------------------------------------------- -/
/- The part_001 validation round (validate, lines 75-144)               -/
/- ------------------------------------------------------------------- -/

/-- Outcomes of the external collaborators for one Route within a round:
whether pa11y reported failures, whether the aXe audit found violations,
the two extracted primary-content inner-markup strings (the catch
handlers turn an extraction failure into the empty string, part_001
lines 113 and 118), the two decoded screenshots, and whether the
Lighthouse audit failed its floor checks (line 138). -/
structure RouteEnv where
  pa11yFails : Bool
  axeViolations : Bool
  localHtml : String
  liveHtml : String
  localShot : PNGImage
  liveShot : PNGImage
  lighthouseFails : Bool

/-- Observable state of a round: the id of the next page context the
browser would hand out, the list of currently open page contexts, the
diff images written so far, and the Routes whose diff step has started. -/
structure VState where
  nextPage : ℕ
  openPages : List ℕ
  written : List String
  diffProcessed : List String
deriving DecidableEq

def initialVState : VState := ⟨0, [], [], []⟩

/-- browser.newPage(): hand out a fresh page id and record it open. -/
def newPage (s : VState) : ℕ × VState :=
  (s.nextPage,
    { s with nextPage := s.nextPage + 1, openPages := s.openPages ++ [s.nextPage] })

/-- page.close(): remove one page id from the open list. -/
def closePage (s : VState) (pid : ℕ) : VState :=
  { s with openPages := s.openPages.filter (fun q => decide (q ≠ pid)) }

/-- The pa11y loop of validate, line 95: run throws on the first failing
Route, aborting the round there. -/
def pa11yLoop (env : String → RouteEnv) : List String → Except VErr Unit
  | [] => Except.ok ()
  | r :: rs =>
    if (env r).pa11yFails then Except.error (VErr.pa11y r) else pa11yLoop env rs

/-- State after the single page context of one aXe iteration was opened
(browser.newPage(), line 98). -/
def axeOpened (s : VState) : VState := (newPage s).2

/-- State after that page context was also closed (line 104). -/
def axeClosed (s : VState) : VState := closePage (axeOpened s) s.nextPage

/-- The aXe loop of validate, lines 97-105: one page context per Route,
opened, audited, thrown on violations before the close call, closed
only when the audit is clean. -/
def axeLoop (env : String → RouteEnv) : List String → VState → VState × Except VErr Unit
  | [], s => (s, Except.ok ())
  | r :: rs, s =>
    if (env r).axeViolations then (axeOpened s, Except.error (VErr.axe r))
    else axeLoop env rs (axeClosed s)

/-- Net state of one diff iteration up to its throw points: the Route is
entered, the local and live page contexts (ids nextPage and nextPage + 1)
were opened on lines 110 and 115, and the listed diff-image writes have
happened. -/
def diffOpened (writes : List String) (r : String) (s : VState) : VState :=
  { nextPage := s.nextPage + 2,
    openPages := s.openPages ++ [s.nextPage, s.nextPage + 1],
    written := s.written ++ writes,
    diffProcessed := s.diffProcessed ++ [r] }

/-- Net state of a fully passing diff iteration: as diffOpened, followed
by the two close calls of lines 130-131. -/
def diffClosed (writes : List String) (r : String) (s : VState) : VState :=
  closePage (closePage (diffOpened writes r s) s.nextPage) (s.nextPage + 1)

/-- The structural and visual diff loop of validate, lines 109-132: per
Route two page contexts are opened, the structural check throws on line
119 before any close and before any write, the visual step (pixelmatch
with the local image's dimensions, the unconditional diff-image write,
the threshold throw on line 129) runs next, and only a fully passing
Route reaches the two close calls on lines 130-131. -/
def diffLoop (env : String → RouteEnv) : List String → VState → VState × Except VErr Unit
  | [], s => (s, Except.ok ())
  | r :: rs, s =>
    if domDiffPass (env r).localHtml (env r).liveHtml then
      match (visualDiffStep (env r).localShot (env r).liveShot r).2 with
      | Except.error err =>
        (diffOpened (visualDiffStep (env r).localShot (env r).liveShot r).1 r s,
          Except.error err)
      | Except.ok _ =>
        diffLoop env rs
          (diffClosed (visualDiffStep (env r).localShot (env r).liveShot r).1 r s)
    else (diffOpened [] r s, Except.error (VErr.domDiff r))

/-- The Lighthouse loop of validate, lines 136-141. -/
def lighthouseLoop (env : String → RouteEnv) : List String → Except VErr Unit
  | [] => Except.ok ()
  | r :: rs =>
    if (env r).lighthouseFails then Except.error (VErr.lighthouse r)
    else lighthouseLoop env rs

/-- validate (part_001 lines 75-144) over the per-round collaborator
outcomes: the static-analysis stage collapses to one flag (each linter
invocation throws on failure, line 87-91), the broken-link check to
another (line 106); the per-Route stages run in source order and the
first throw anywhere ends the round with that error, leaving the state as
it stood. The final browser.close and server.kill of lines 142-143 do
not touch page contexts. -/
def validateP1 (lintFails blcFails : Bool) (env : String → RouteEnv)
    (routes : List String) : VState × Except VErr Unit :=
  if lintFails then (initialVState, Except.error VErr.lint)
  else
    match pa11yLoop env routes with
    | Except.error e => (initialVState, Except.error e)
    | Except.ok _ =>
      match (axeLoop env routes initialVState).2 with
      | Except.error e => ((axeLoop env routes initialVState).1, Except.error e)
      | Except.ok _ =>
        if blcFails then ((axeLoop env routes initialVState).1, Except.error VErr.blc)
        else
          match (diffLoop env routes (axeLoop env routes initialVState).1).2 with
          | Except.error e =>
            ((diffLoop env routes (axeLoop env routes initialVState).1).1, Except.error e)
          | Except.ok _ =>
            match lighthouseLoop env routes with
            | Except.error e =>
              ((diffLoop env routes (axeLoop env routes initialVState).1).1, Except.error e)
            | Except.ok _ =>
              ((diffLoop env routes (axeLoop env routes initialVState).1).1, Except.ok ())

/- ------------------------------------------------------------------- -/
/- The part_002 per-Route structural check (runDomDiff, lines 139-156)  -/
/- ------------------------------------------------------------------- -/

/-- Outcome of the per-page body of part_002 runDomDiff: either both
extractions completed (the catch handlers on lines 146 and 148 turn a
missing selector into the empty string) or the body threw. -/
inductive DomOutcome
  | evalOk (localHtml liveHtml : String)
  | evalErr (msg : String)

/-- The per-page failure condition of part_002 runDomDiff: an exact
inner-markup mismatch (line 149) or a thrown error (line 152). -/
def domFails : DomOutcome → Prop
  | DomOutcome.evalOk l v => l ≠ v
  | DomOutcome.evalErr _ => True

instance : DecidablePred domFails := by
  intro o
  cases o with
  | evalOk l v => exact instDecidableNot
  | evalErr m => exact instDecidableTrue

/-- runDomDiff (part_002 lines 139-156): every page is processed; a
mismatch pushes an entry without an error message, a thrown body pushes
an entry carrying the message, and the loop then continues with the
remaining pages either way. The accumulator is results.dom. -/
def runDomDiff (env : String → DomOutcome) :
    List String → List (String × Option String) → List (String × Option String)
  | [], results => results
  | p :: ps, results =>
    match env p with
    | DomOutcome.evalOk l v =>
      runDomDiff env ps (if l ≠ v then results ++ [(p, none)] else results)
    | DomOutcome.evalErr m => runDomDiff env ps (results ++ [(p, some m)])

/- Per-Route passing conditions, phrased over the collaborator outcomes -/

/-- The diff iteration of a Route runs to its two close calls: the
structural check passes, the two screenshot buffers are well-formed and
equal-sized, and the pixel-diff percentage is within the threshold. -/
def diffPasses (e : RouteEnv) : Prop :=
  domDiffPass e.localHtml e.liveHtml = true ∧
  e.localShot.data.length = e.localShot.width * e.localShot.height * 4 ∧
  e.liveShot.data.length = e.localShot.data.length ∧
  (pmCount e.localShot.data e.liveShot.data (e.localShot.width * e.localShot.height) : ℚ) /
      ((e.localShot.width * e.localShot.height : ℕ) : ℚ) * 100 ≤ visualThreshold

/-- Every check of a Route passes. -/
def routePasses (e : RouteEnv) : Prop :=
  e.pa11yFails = false ∧ e.axeViolations = false ∧ diffPasses e ∧
  e.lighthouseFails = false

/- Lemmas about the loops of a round -/

theorem filter_ne_of_bound (l : List ℕ) (n : ℕ) (h : ∀ p ∈ l, p < n)
    (m : ℕ) (hm : n ≤ m) : l.filter (fun q => decide (q ≠ m)) = l :=
  List.filter_eq_self.mpr
    (fun a ha => decide_eq_true (Nat.ne_of_lt (lt_of_lt_of_le (h a ha) hm)))

theorem axeClosed_openPages (s : VState)
    (hinv : ∀ p ∈ s.openPages, p < s.nextPage) :
    (axeClosed s).openPages = s.openPages := by
  show (s.openPages ++ [s.nextPage]).filter (fun q => decide (q ≠ s.nextPage)) =
    s.openPages
  rw [List.filter_append,
    filter_ne_of_bound s.openPages s.nextPage hinv s.nextPage (le_refl _)]
  simp

theorem axeLoop_ok (env : String → RouteEnv) :
    ∀ (rs : List String) (s : VState),
      (∀ r ∈ rs, (env r).axeViolations = false) →
      (∀ p ∈ s.openPages, p < s.nextPage) →
      (axeLoop env rs s).2 = Except.ok () ∧
      (axeLoop env rs s).1.openPages = s.openPages ∧
      s.nextPage ≤ (axeLoop env rs s).1.nextPage := by
  intro rs
  induction rs with
  | nil => intro s _ _; exact ⟨rfl, rfl, le_refl _⟩
  | cons r rs ih =>
    intro s hall hinv
    have hax : (env r).axeViolations = false := hall r (List.mem_cons_self r rs)
    have hstep : axeLoop env (r :: rs) s = axeLoop env rs (axeClosed s) := by
      simp only [axeLoop, hax, Bool.false_eq_true, if_false]
    have hopen : (axeClosed s).openPages = s.openPages := axeClosed_openPages s hinv
    have hnext : (axeClosed s).nextPage = s.nextPage + 1 := rfl
    have hinv2 : ∀ p ∈ (axeClosed s).openPages, p < (axeClosed s).nextPage := by
      rw [hopen, hnext]
      intro p hp
      exact Nat.lt_succ_of_lt (hinv p hp)
    have ihX := ih (axeClosed s) (fun q hq => hall q (List.mem_cons_of_mem r hq)) hinv2
    rw [hstep]
    refine ⟨ihX.1, ihX.2.1.trans hopen, ?_⟩
    have h1 : s.nextPage ≤ (axeClosed s).nextPage := by
      rw [hnext]
      omega
    exact le_trans h1 ihX.2.2

theorem axeLoop_all_ok (env : String → RouteEnv) :
    ∀ (rs : List String) (s : VState),
      (axeLoop env rs s).2 = Except.ok () →
      ∀ r ∈ rs, (env r).axeViolations = false := by
  intro rs
  induction rs with
  | nil =>
    intro s _ r hr
    exact absurd hr (List.not_mem_nil r)
  | cons q rs ih =>
    intro s hok r hr
    cases hq : (env q).axeViolations with
    | true =>
      exfalso
      have hbad : (axeLoop env (q :: rs) s).2 = Except.error (VErr.axe q) := by
        simp only [axeLoop, hq, if_true]
      rw [hbad] at hok
      exact Except.noConfusion hok
    | false =>
      have hstep : axeLoop env (q :: rs) s = axeLoop env rs (axeClosed s) := by
        simp only [axeLoop, hq, Bool.false_eq_true, if_false]
      rcases List.mem_cons.mp hr with rfl | hr2
      · exact hq
      · rw [hstep] at hok
        exact ih (axeClosed s) hok r hr2

theorem diffClosed_openPages (w : List String) (r : String) (s : VState)
    (hinv : ∀ p ∈ s.openPages, p < s.nextPage) :
    (diffClosed w r s).openPages = s.openPages := by
  show ((s.openPages ++ [s.nextPage, s.nextPage + 1]).filter
      (fun q => decide (q ≠ s.nextPage))).filter
      (fun q => decide (q ≠ s.nextPage + 1)) = s.openPages
  rw [List.filter_append,
    filter_ne_of_bound s.openPages s.nextPage hinv s.nextPage (le_refl _)]
  have h1 : ([s.nextPage, s.nextPage + 1].filter (fun q => decide (q ≠ s.nextPage))) =
      [s.nextPage + 1] := by
    simp
  rw [h1, List.filter_append,
    filter_ne_of_bound s.openPages s.nextPage hinv (s.nextPage + 1) (by omega)]
  simp

theorem diffLoop_ok (env : String → RouteEnv) :
    ∀ (rs : List String) (s : VState),
      (∀ r ∈ rs, diffPasses (env r)) →
      (∀ p ∈ s.openPages, p < s.nextPage) →
      (diffLoop env rs s).2 = Except.ok () ∧
      (diffLoop env rs s).1.openPages = s.openPages := by
  intro rs
  induction rs with
  | nil => intro s _ _; exact ⟨rfl, rfl⟩
  | cons r rs ih =>
    intro s hall hinv
    obtain ⟨hdp, hw1, hw2, hle⟩ := hall r (List.mem_cons_self r rs)
    have hok2 : (visualDiffStep (env r).localShot (env r).liveShot r).2 =
        Except.ok ((pmCount (env r).localShot.data (env r).liveShot.data
            ((env r).localShot.width * (env r).localShot.height) : ℚ) /
          (((env r).localShot.width * (env r).localShot.height : ℕ) : ℚ) * 100) := by
      rw [visualDiffStep_eq (env r).localShot (env r).liveShot r hw1 hw2]
      exact if_neg (not_lt.mpr hle)
    have hstep : diffLoop env (r :: rs) s =
        diffLoop env rs
          (diffClosed (visualDiffStep (env r).localShot (env r).liveShot r).1 r s) := by
      simp only [diffLoop]
      rw [if_pos hdp, hok2]
    have hopen : (diffClosed (visualDiffStep (env r).localShot (env r).liveShot r).1 r s).openPages =
        s.openPages := diffClosed_openPages _ r s hinv
    have hnext : (diffClosed (visualDiffStep (env r).localShot (env r).liveShot r).1 r s).nextPage =
        s.nextPage + 2 := rfl
    have hinv2 : ∀ p ∈ (diffClosed (visualDiffStep (env r).localShot (env r).liveShot r).1 r s).openPages,
        p < (diffClosed (visualDiffStep (env r).localShot (env r).liveShot r).1 r s).nextPage := by
      rw [hopen, hnext]
      intro p hp
      exact lt_of_lt_of_le (hinv p hp) (by omega)
    have ihX := ih (diffClosed (visualDiffStep (env r).localShot (env r).liveShot r).1 r s)
      (fun q hq => hall q (List.mem_cons_of_mem r hq)) hinv2
    rw [hstep]
    exact ⟨ihX.1, ihX.2.trans hopen⟩

theorem pa11yLoop_ok (env : String → RouteEnv) :
    ∀ rs, (∀ r ∈ rs, (env r).pa11yFails = false) →
      pa11yLoop env rs = Except.ok () := by
  intro rs
  induction rs with
  | nil => intro _; rfl
  | cons r rs ih =>
    intro hall
    have h := hall r (List.mem_cons_self r rs)
    simp only [pa11yLoop, h, Bool.false_eq_true, if_false]
    exact ih (fun q hq => hall q (List.mem_cons_of_mem r hq))

theorem lighthouseLoop_ok (env : String → RouteEnv) :
    ∀ rs, (∀ r ∈ rs, (env r).lighthouseFails = false) →
      lighthouseLoop env rs = Except.ok () := by
  intro rs
  induction rs with
  | nil => intro _; rfl
  | cons r rs ih =>
    intro hall
    have h := hall r (List.mem_cons_self r rs)
    simp only [lighthouseLoop, h, Bool.false_eq_true, if_false]
    exact ih (fun q hq => hall q (List.mem_cons_of_mem r hq))

theorem runDomDiff_eq_append (env : String → DomOutcome) :
    ∀ (ps : List String) (res : List (String × Option String)),
      runDomDiff env ps res = res ++ runDomDiff env ps [] := by
  intro ps
  induction ps with
  | nil => intro res; simp [runDomDiff]
  | cons p ps ih =>
    intro res
    cases henv : env p with
    | evalOk l v =>
      by_cases hlv : l ≠ v
      · simp only [runDomDiff, henv, if_pos hlv]
        rw [ih (res ++ [(p, none)]), ih ([] ++ [(p, none)])]
        simp
      · simp only [runDomDiff, henv, if_neg hlv]
        exact ih res
    | evalErr m =>
      simp only [runDomDiff, henv]
      rw [ih (res ++ [(p, some m)]), ih ([] ++ [(p, some m)])]
      simp

theorem runDomDiff_records (env : String → DomOutcome) :
    ∀ (ps : List String) (p : String), p ∈ ps → domFails (env p) →
      ∃ d, (p, d) ∈ runDomDiff env ps [] := by
  intro ps
  induction ps with
  | nil =>
    intro p hp _
    exact absurd hp (List.not_mem_nil p)
  | cons q ps ih =>
    intro p hp hf
    rcases List.mem_cons.mp hp with rfl | hp2
    · cases henv : env p with
      | evalOk l v =>
        have hlv : l ≠ v := by
          rw [henv] at hf
          simpa [domFails] using hf
        refine ⟨none, ?_⟩
        simp only [runDomDiff, henv, if_pos hlv]
        rw [runDomDiff_eq_append env ps ([] ++ [(p, none)])]
        simp
      | evalErr m =>
        refine ⟨some m, ?_⟩
        simp only [runDomDiff, henv]
        rw [runDomDiff_eq_append env ps ([] ++ [(p, some m)])]
        simp
    · obtain ⟨d, hd⟩ := ih p hp2 hf
      refine ⟨d, ?_⟩
      cases henv : env q with
      | evalOk l v =>
        by_cases hlv : l ≠ v
        · simp only [runDomDiff, henv, if_pos hlv]
          rw [runDomDiff_eq_append env ps ([] ++ [(q, none)])]
          exact List.mem_append_right _ hd
        · simp only [runDomDiff, henv, if_neg hlv]
          exact hd
      | evalErr m =>
        simp only [runDomDiff, henv]
        rw [runDomDiff_eq_append env ps ([] ++ [(q, some m)])]
        exact List.mem_append_right _ hd

theorem validateP1_axe_aborts (lintFails blcFails : Bool) (env : String → RouteEnv)
    (routes : List String) (r : String) (hr : r ∈ routes)
    (ha : (env r).axeViolations = true) :
    (validateP1 lintFails blcFails env routes).2 ≠ Except.ok () := by
  unfold validateP1
  by_cases hl : lintFails = true
  · rw [if_pos hl]
    intro h
    exact Except.noConfusion h
  · rw [if_neg hl]
    cases hp : pa11yLoop env routes with
    | error e =>
      intro h
      exact Except.noConfusion h
    | ok u =>
      cases hA : (axeLoop env routes initialVState).2 with
      | error e =>
        intro h
        exact Except.noConfusion h
      | ok u2 =>
        intro _
        have hok : (axeLoop env routes initialVState).2 = Except.ok () := by
          rw [hA]
        have := axeLoop_all_ok env routes initialVState hok r hr
        rw [ha] at this
        exact Bool.noConfusion this

/- ----------------- -/
/- Claim C1           -/
/- ----------------- -/

/-- C1 amended: in the part_002 structural-check loop a single Route's
error (mismatch or thrown body) is recorded as that Route's entry in the
results and the loop continues over the remaining Routes; in the
part_001 round, however, a single Route's check error (here an aXe
violation) makes the whole round end in an error instead of a success,
so the round never completes normally — the enclosing unbounded retry
loop, not the round, is what carries on. -/
theorem C1_route_error_policy (envD : String → DomOutcome) (pages : List String)
    (p : String) (hp : p ∈ pages) (hf : domFails (envD p))
    (lintFails blcFails : Bool) (env : String → RouteEnv) (routes : List String)
    (r : String) (hr : r ∈ routes) (ha : (env r).axeViolations = true) :
    (∃ d, (p, d) ∈ runDomDiff envD pages []) ∧
    (validateP1 lintFails blcFails env routes).2 ≠ Except.ok () :=
  ⟨runDomDiff_records envD pages p hp hf,
    validateP1_axe_aborts lintFails blcFails env routes r hr ha⟩

/-- Collaborator outcomes where only the first Route has an aXe
violation and everything else is clean. -/
def c1Env : String → RouteEnv := fun r =>
  ⟨false, decide (r = "about-us"), "x", "x", imgA, imgA, false⟩

/-- C1 counterexample: in the part_001 round an aXe violation on the
first Route aborts the round at once: the result is an error, no Route
ever reaches the diff stage (the second Route's checks are skipped), and
nothing is recorded for the failing Route (part_001 keeps no Report). -/
theorem C1_counterexample :
    (validateP1 false false c1Env ["about-us", "events"]).2 =
      Except.error (VErr.axe "about-us") ∧
    (validateP1 false false c1Env ["about-us", "events"]).1.diffProcessed = [] ∧
    (validateP1 false false c1Env ["about-us", "events"]).1.written = [] :=
  ⟨rfl, rfl, rfl⟩

/-- part_002 per-page outcomes: the second page's body throws, the first
page extracts matching markup. -/
def c1DomEnv : String → DomOutcome := fun q =>
  if q = "events" then DomOutcome.evalErr "navigation timeout"
  else DomOutcome.evalOk "x" "x"

/-- C1 witness: concrete page and Route lists exercising both halves of
the amended statement. -/
theorem C1_route_error_policy_witness :
    ("events" ∈ ["about-us", "events"]) ∧ domFails (c1DomEnv "events") ∧
    ("about-us" ∈ ["about-us", "events"]) ∧
    (c1Env "about-us").axeViolations = true ∧
    ((∃ d, ("events", d) ∈ runDomDiff c1DomEnv ["about-us", "events"] []) ∧
      (validateP1 false false c1Env ["about-us", "events"]).2 ≠ Except.ok ()) :=
  ⟨by decide, by decide, by decide, by decide,
    C1_route_error_policy c1DomEnv ["about-us", "events"] "events" (by decide)
      (by decide) false false c1Env ["about-us", "events"] "about-us" (by decide)
      (by decide)⟩

/- ----------------- -/
/- Claim C9           -/
/- ----------------- -/

/-- C9 amended: page contexts are closed before the loop moves to the
next Route only along the check-passing paths; when every check of every
Route passes, the round ends in success with no page context left open.
When a check fails, the throw happens before that Route's close calls,
so the failing Route's page contexts stay open as the round aborts (see
the counterexample). -/
theorem C9_pages_closed_on_success (env : String → RouteEnv)
    (routes : List String) (h : ∀ r ∈ routes, routePasses (env r)) :
    (validateP1 false false env routes).2 = Except.ok () ∧
    (validateP1 false false env routes).1.openPages = [] := by
  have hpa : pa11yLoop env routes = Except.ok () :=
    pa11yLoop_ok env routes (fun r hr => (h r hr).1)
  have hinv0 : ∀ p ∈ initialVState.openPages, p < initialVState.nextPage := by
    intro p hp
    exact absurd hp (List.not_mem_nil p)
  have hax := axeLoop_ok env routes initialVState (fun r hr => (h r hr).2.1) hinv0
  have hinv1 : ∀ p ∈ (axeLoop env routes initialVState).1.openPages,
      p < (axeLoop env routes initialVState).1.nextPage := by
    rw [hax.2.1]
    intro p hp
    exact absurd hp (List.not_mem_nil p)
  have hdl := diffLoop_ok env routes (axeLoop env routes initialVState).1
    (fun r hr => (h r hr).2.2.1) hinv1
  have hlh : lighthouseLoop env routes = Except.ok () :=
    lighthouseLoop_ok env routes (fun r hr => (h r hr).2.2.2)
  unfold validateP1
  rw [if_neg (by simp), hpa, hax.1, if_neg (by simp), hdl.1, hlh]
  exact ⟨rfl, hdl.2.trans hax.2.1⟩

/-- Collaborator outcomes where every Route has aXe violations. -/
def c9Env : String → RouteEnv := fun _ => ⟨false, true, "x", "x", imgA, imgA, false⟩

/-- C9 counterexample: a failing aXe check throws before the close call,
so the round ends with the failing Route's page context (id 0) still
open. -/
theorem C9_counterexample :
    (validateP1 false false c9Env ["about-us"]).2 =
      Except.error (VErr.axe "about-us") ∧
    (validateP1 false false c9Env ["about-us"]).1.openPages = [0] :=
  ⟨rfl, rfl⟩

/-- Collaborator outcomes where every check passes. -/
def c9PassEnv : String → RouteEnv := fun _ => ⟨false, false, "x", "x", imgA, imgA, false⟩

instance (e : RouteEnv) : Decidable (diffPasses e) := by
  unfold diffPasses
  infer_instance

instance (e : RouteEnv) : Decidable (routePasses e) := by
  unfold routePasses
  infer_instance

/-- C9 witness: a concrete all-passing round over one Route leaves no
page context open. -/
theorem C9_pages_closed_witness :
    (∀ r ∈ ["about-us"], routePasses (c9PassEnv r)) ∧
    ((validateP1 false false c9PassEnv ["about-us"]).2 = Except.ok () ∧
      (validateP1 false false c9PassEnv ["about-us"]).1.openPages = []) := by
  have hall : ∀ r ∈ ["about-us"], routePasses (c9PassEnv r) := by
    intro r hr
    refine ⟨rfl, rfl, ⟨domDiffPass_self "x" (by decide), rfl, rfl, ?_⟩, rfl⟩
    show ((pmCount imgA.data imgA.data (imgA.width * imgA.height) : ℕ) : ℚ) /
        ((imgA.width * imgA.height : ℕ) : ℚ) * 100 ≤ visualThreshold
    rw [show pmCount imgA.data imgA.data (imgA.width * imgA.height) = 0 from rfl,
      show imgA.width * imgA.height = 1 from rfl]
    norm_num [visualThreshold]
  exact ⟨hall, C9_pages_closed_on_success c9PassEnv ["about-us"] hall⟩

/- ------------------------------------------------------------------- -/
/- Bounded retry (src/unnamed/part_002, main IIFE, lines 209-226)       -/
/- ------------------------------------------------------------------- -/

/-- The per-check accumulators of one part_002 validation round
(line 188), each entry one recorded diagnostic. -/
structure P2Results where
  html : List String
  css : List String
  js : List String
  accessibility : List String
  links : List String
  spell : List String
  dom : List String
  visual : List String
  lighthouse : List String

/-- summarize (part_002 lines 204-207): the round's failure total is the
sum of the lengths of all accumulator lists. -/
def summarize (res : P2Results) : ℕ :=
  res.html.length + res.css.length + res.js.length + res.accessibility.length +
    res.links.length + res.spell.length + res.dom.length + res.visual.length +
    res.lighthouse.length

/-- The bounded retry loop of the part_002 main IIFE (lines 213-223),
with the round (fix phase plus validation phase) stubbed as a parameter
from attempt number to its results, exactly as the spec's stub-validator
property frames it. The first argument counts the attempts still
allowed (the for loop runs attempt = 1 .. MAX_ATTEMPTS); the
accumulator holds the reports persisted so far, one write per round
(line 216); the second component of the result is the process exit
code. -/
def boundedLoop (round : ℕ → P2Results) :
    ℕ → ℕ → List P2Results → List P2Results × ℕ
  | 0, _, persisted => (persisted, 1)
  | fuel + 1, attempt, persisted =>
    let results := round attempt
    let persisted2 := persisted ++ [results]
    if summarize results = 0 then (persisted2, 0)
    else boundedLoop round fuel (attempt + 1) persisted2

/-- MAX_ATTEMPTS, part_002 line 212. -/
def MAX_ATTEMPTS : ℕ := 3

/-- The whole part_002 main IIFE retry driver. -/
def boundedMain (round : ℕ → P2Results) : List P2Results × ℕ :=
  boundedLoop round MAX_ATTEMPTS 1 []

theorem boundedLoop_step (round : ℕ → P2Results) (fuel attempt : ℕ)
    (persisted : List P2Results) (h : ¬ summarize (round attempt) = 0) :
    boundedLoop round (fuel + 1) attempt persisted =
      boundedLoop round fuel (attempt + 1) (persisted ++ [round attempt]) := by
  simp only [boundedLoop]
  rw [if_neg h]

/- ----------------- -/
/- Claim C4           -/
/- ----------------- -/

/-- C4: in bounded-retry mode, when every round produces at least one
failure, exactly MAX_ATTEMPTS (3) rounds run, the report of every round
is persisted in order, and the driver ends with the non-zero exit code 1
(the attempts-exhausted branch after the loop, line 225). -/
theorem C4_bounded_retry (round : ℕ → P2Results)
    (h : ∀ i, 1 ≤ i → i ≤ MAX_ATTEMPTS → 0 < summarize (round i)) :
    boundedMain round = ([round 1, round 2, round 3], 1) := by
  have h1 : ¬ summarize (round 1) = 0 :=
    Nat.pos_iff_ne_zero.mp (h 1 (by decide) (by decide))
  have h2 : ¬ summarize (round 2) = 0 :=
    Nat.pos_iff_ne_zero.mp (h 2 (by decide) (by decide))
  have h3 : ¬ summarize (round 3) = 0 :=
    Nat.pos_iff_ne_zero.mp (h 3 (by decide) (by decide))
  calc boundedMain round = boundedLoop round (2 + 1) 1 [] := rfl
    _ = boundedLoop round (1 + 1) 2 [round 1] := boundedLoop_step round 2 1 [] h1
    _ = boundedLoop round (0 + 1) 3 [round 1, round 2] :=
        boundedLoop_step round 1 2 [round 1] h2
    _ = boundedLoop round 0 4 [round 1, round 2, round 3] :=
        boundedLoop_step round 0 3 [round 1, round 2] h3
    _ = ([round 1, round 2, round 3], 1) := rfl

/-- A validator stub that always reports one markup failure. -/
def alwaysFailStub : ℕ → P2Results :=
  fun _ => ⟨["markup error"], [], [], [], [], [], [], [], []⟩

/-- C4 witness: the always-failing stub runs exactly three rounds, three
reports are persisted, and the exit code is 1. -/
theorem C4_bounded_retry_witness :
    (∀ i, 1 ≤ i → i ≤ MAX_ATTEMPTS → 0 < summarize (alwaysFailStub i)) ∧
    boundedMain alwaysFailStub =
      ([alwaysFailStub 1, alwaysFailStub 2, alwaysFailStub 3], 1) :=
  ⟨fun _ _ _ => Nat.one_pos,
    C4_bounded_retry alwaysFailStub (fun _ _ _ => Nat.one_pos)⟩

/- ------------------------------------------------------------------- -/
/- Unbounded retry (src/unnamed/part_001, main IIFE, lines 146-169)     -/
/- ------------------------------------------------------------------- -/

/-- The unbounded while loop of the part_001 main IIFE (lines 154-162),
with the round outcome stubbed as a parameter: roundFails n is whether
validate threw in the n-th round (n counted from 0). On a failing round
the catch handler re-synchronizes every Route (line 160) and the loop
runs the round again; on a passing round the loop stops. The loop has no
bound of its own, so it is run on explicit fuel: none means the fuel ran
out with the loop still going, some (rounds, resyncs) means it stopped
after that many rounds with that log of full-route-set
re-synchronizations, one entry per failed round. -/
def unboundedLoop (roundFails : ℕ → Bool) (routes : List String) :
    ℕ → ℕ → Option (ℕ × List (List String))
  | 0, _ => none
  | fuel + 1, n =>
    if roundFails n then
      match unboundedLoop roundFails routes fuel (n + 1) with
      | some (rounds, resyncs) => some (rounds + 1, routes :: resyncs)
      | none => none
    else some (1, [])

/-- The part_001 driver around the loop: when the loop finishes, the
process exits with code 0 (line 164). -/
def unboundedMain (roundFails : ℕ → Bool) (routes : List String) (fuel : ℕ) :
    Option (ℕ × List (List String) × ℕ) :=
  match unboundedLoop roundFails routes fuel 0 with
  | some (rounds, resyncs) => some (rounds, resyncs, 0)
  | none => none

theorem unboundedLoop_spec (g : ℕ → Bool) (routes : List String) :
    ∀ (m n k : ℕ) (rs : List (List String)),
      unboundedLoop g routes m n = some (k, rs) →
      1 ≤ k ∧ g (n + (k - 1)) = false ∧ (∀ j, j < k - 1 → g (n + j) = true) ∧
      rs = List.replicate (k - 1) routes := by
  intro m
  induction m with
  | zero =>
    intro n k rs h
    exact absurd h (by simp [unboundedLoop])
  | succ m ih =>
    intro n k rs h
    cases hg : g n with
    | true =>
      simp only [unboundedLoop, hg, if_true] at h
      cases hrec : unboundedLoop g routes m (n + 1) with
      | none =>
        rw [hrec] at h
        exact Option.noConfusion h
      | some pr =>
        obtain ⟨k2, rs2⟩ := pr
        rw [hrec] at h
        have h2 := Option.some.inj h
        have hk : k2 + 1 = k := congrArg Prod.fst h2
        have hrs : routes :: rs2 = rs := congrArg Prod.snd h2
        obtain ⟨h1k, h2g, h3g, h4r⟩ := ih (n + 1) k2 rs2 hrec
        subst hk
        subst hrs
        refine ⟨by omega, ?_, ?_, ?_⟩
        · rw [show n + (k2 + 1 - 1) = n + 1 + (k2 - 1) by omega]
          exact h2g
        · intro j hj
          cases j with
          | zero => simpa using hg
          | succ j2 =>
            rw [show n + (j2 + 1) = n + 1 + j2 by omega]
            exact h3g j2 (by omega)
        · rw [h4r]
          calc routes :: List.replicate (k2 - 1) routes
              = List.replicate (k2 - 1 + 1) routes :=
                (List.replicate_succ routes (k2 - 1)).symm
            _ = List.replicate (k2 + 1 - 1) routes := by
                rw [show k2 - 1 + 1 = k2 + 1 - 1 by omega]
    | false =>
      simp only [unboundedLoop, hg, Bool.false_eq_true, if_false] at h
      have h2 := Option.some.inj h
      have hk : 1 = k := congrArg Prod.fst h2
      have hrs : ([] : List (List String)) = rs := congrArg Prod.snd h2
      subst hk
      subst hrs
      refine ⟨le_refl 1, by simpa using hg, ?_, rfl⟩
      intro j hj
      exact absurd hj (by omega)

/- ----------------- -/
/- Claim C5           -/
/- ----------------- -/

/-- C5: in unbounded-retry mode every failed round is followed by a
re-synchronization of the full Route set and a re-run, the loop stops
exactly at the first round that reports no failure (all earlier rounds
failed, one full resync per failed round), the exit code is then 0, and
for a validation that fails once and then passes exactly two rounds run
with one full resync in between. -/
theorem C5_unbounded_retry (f : ℕ → Bool) (routes : List String) (fuel : ℕ)
    (h0 : f 0 = true) (h1 : f 1 = false) (hf : 2 ≤ fuel) :
    unboundedMain f routes fuel = some (2, [routes], 0) ∧
    (∀ (g : ℕ → Bool) (m n k : ℕ) (rs : List (List String)),
      unboundedLoop g routes m n = some (k, rs) →
      1 ≤ k ∧ g (n + (k - 1)) = false ∧ (∀ j, j < k - 1 → g (n + j) = true) ∧
      rs = List.replicate (k - 1) routes) := by
  constructor
  · obtain ⟨m, rfl⟩ : ∃ m, fuel = m + 2 := ⟨fuel - 2, by omega⟩
    have e1 : unboundedLoop f routes (m + 1) 1 = some (1, []) := by
      simp only [unboundedLoop, h1, Bool.false_eq_true, if_false]
    have e2 : unboundedLoop f routes (m + 2) 0 = some (2, [routes]) := by
      rw [show m + 2 = m + 1 + 1 from rfl]
      simp only [unboundedLoop, h0, h1, if_true, Bool.false_eq_true, if_false,
        Nat.zero_add]
    unfold unboundedMain
    rw [e2]
  · exact fun g => unboundedLoop_spec g routes

/-- A validator stub that fails in round 0 and passes from round 1 on. -/
def failsOnceStub : ℕ → Bool := fun n => decide (n = 0)

/-- C5 witness: the fails-once stub on one Route with fuel two: exactly
two rounds, one full resync, exit code 0. -/
theorem C5_unbounded_retry_witness :
    failsOnceStub 0 = true ∧ failsOnceStub 1 = false ∧ 2 ≤ 2 ∧
    (unboundedMain failsOnceStub ["about-us"] 2 = some (2, [["about-us"]], 0) ∧
      (∀ (g : ℕ → Bool) (m n k : ℕ) (rs : List (List String)),
        unboundedLoop g ["about-us"] m n = some (k, rs) →
        1 ≤ k ∧ g (n + (k - 1)) = false ∧ (∀ j, j < k - 1 → g (n + j) = true) ∧
        rs = List.replicate (k - 1) ["about-us"])) :=
  ⟨rfl, rfl, by omega,
    C5_unbounded_retry failsOnceStub ["about-us"] 2 rfl rfl (by omega)⟩
